import Mathlib

set_option autoImplicit false

/-!
Shallow embedding of `jug/hooks/exit_checks.py`: the early-termination hook
factories (file-marker, generic predicate, task counter, wall-clock deadline)
and the environment-driven configurator `exit_env_vars`.

Conventions of the embedding:

* A hook callback finishes an event in one of three ways: it calls
  `sys.exit(code)` (modelled by `Outcome.exit code`), it returns control to
  the scheduler (`Outcome.cont`), or an exception propagates out of it
  (`Outcome.raised e`).
* Python's wall clock `time.time()` is threaded explicitly as a rational
  value: a factory receives the registration-time clock reading and a
  callback receives the clock reading at the event it handles.
* Mutable closure state (the cell `executed = [0]` of `exit_after_n_tasks`)
  is threaded as an explicit state argument of the callback.
* Calling a Python callable with the wrong number of arguments raises
  `TypeError`.  `Callable`, `call0` and `call1` model exactly as much of this
  dynamic behaviour as `exit_when_true` exercises: its wrapper
  `f = lambda t : f()` rebinds the local name `f`, so the lambda's own free
  occurrence of `f` refers to the lambda itself.
* `exit_env_vars` is modelled as a function from the environment mapping (an
  association list) to the sequence of watcher installations it performs
  (each `Installation` records one factory call with its arguments) together
  with the error it raises, if any; installations recorded before the error
  have already happened when the error aborts configuration.
-/

namespace JugExit

/-- How one invocation of a registered hook callback ends: `exit code` models
`sys.exit(code)` terminating the process, `cont` models returning control to
the scheduler, and `raised e` models an exception propagating out of the
callback into the scheduler's dispatch. -/
inductive Outcome (E : Type) where
  | exit (code : Nat)
  | cont
  | raised (e : E)
  deriving DecidableEq

/-- Exceptions that can escape the predicate watcher's callback: a
`TypeError` from a wrong-arity call, or an exception `user e` raised by the
caller-supplied function itself. -/
inductive PyExc (E : Type) where
  | typeError
  | user (e : E)
  deriving DecidableEq

/-- A Python callable as seen by `exit_when`: a caller-supplied function of
zero or one argument returning a value or raising, or the wrapper lambda
`lambda t : f()` produced by `exit_when_true`, whose free name `f` refers
(by Python late binding) to the rebound local `f`, i.e. to the lambda
itself.  After the rebinding the original callable is unreachable from the
wrapper, so the wrapper needs no field. -/
inductive Callable (Task V E : Type) where
  | pyfun0 (g : Unit → Except E V)
  | pyfun1 (g : Task → Except E V)
  | selfLambda

section Callbacks

variable {Task V E : Type}

/-- Lift the result of caller-supplied code to the watcher's exception
type. -/
def liftUser : Except E V → Except (PyExc E) V
  | Except.ok v => Except.ok v
  | Except.error e => Except.error (PyExc.user e)

/-- Calling a callable with zero arguments.  A one-argument callable — in
particular the wrapper lambda, whose single parameter is `t` — raises
`TypeError` (missing required positional argument) without running its
body. -/
def call0 : Callable Task V E → Except (PyExc E) V
  | Callable.pyfun0 g => liftUser (g ())
  | Callable.pyfun1 _ => Except.error PyExc.typeError
  | Callable.selfLambda => Except.error PyExc.typeError

/-- Calling a callable with one argument.  A zero-argument callable raises
`TypeError`; the wrapper lambda evaluates its body `f()`, where `f` is the
lambda itself, i.e. a zero-argument call of the one-argument lambda. -/
def call1 : Callable Task V E → Task → Except (PyExc E) V
  | Callable.pyfun0 _, _ => Except.error PyExc.typeError
  | Callable.pyfun1 g, t => liftUser (g t)
  | Callable.selfLambda, _ => call0 (Callable.selfLambda : Callable Task V E)

/-- The value bound to the local name `f` after
`if not function_takes_Task: f = lambda t : f()` in `exit_when_true`: when
the flag is false the local `f` is rebound to the wrapper lambda. -/
def exit_when_true_f (f : Callable Task V E) (function_takes_Task : Bool) :
    Callable Task V E :=
  if function_takes_Task then f else Callable.selfLambda

/-- The registered callback `exit_when(t)` of `exit_when_true`: call `f(t)`;
on a truthy result call `sys.exit(0)`; on a falsy result return to the
scheduler.  There is no handler in `exit_when`, so an exception from the
call propagates. -/
def exit_when (truthy : V → Bool) (f : Callable Task V E) (t : Task) :
    Outcome (PyExc E) :=
  match call1 f t with
  | Except.error e => Outcome.raised e
  | Except.ok v => if truthy v then Outcome.exit 0 else Outcome.cont

/-- The registered callback `check_file(_t)` of `exit_if_file_exists`: if
`os.path.exists(fname)` then `sys.exit(0)`, else return.  The filesystem at
the moment of the event is modelled as the predicate `fs`. -/
def check_file (fname : String) (fs : String → Bool) (_t : Task) : Outcome E :=
  if fs fname then Outcome.exit 0 else Outcome.cont

/-- The registered callback `exit_after(_t)` of `exit_after_n_tasks`, with
the closure cell `executed = [0]` threaded explicitly: increment the
counter, then call `sys.exit(0)` as soon as it has reached or exceeded `n`.
Returns the new counter value together with the outcome. -/
def exit_after (n : Int) (executed : Int) : Int × Outcome E :=
  let executed := executed + 1
  (executed, if executed ≥ n then Outcome.exit 0 else Outcome.cont)

/-- The counter-watcher state after `k` post-execute events, starting from
the initial closure state `0`: `some s` when the process is still alive
with counter value `s`, and `none` when some event at or before `k` called
`sys.exit(0)` (after which no further event is processed). -/
def afterEvents (n : Int) : Nat → Option Int
  | 0 => some 0
  | Nat.succ k =>
    match afterEvents n k with
    | none => none
    | some s =>
      match (exit_after n s : Int × Outcome Empty) with
      | (_, Outcome.exit _) => none
      | (s2, _) => some s2

/-- The deadline computed at registration time in `exit_after_time`:
`deadline = time(); deadline += seconds; deadline += 60*minutes;
deadline += 60*60*hours`, where `now` is the clock reading at
registration. -/
def deadline (now hours minutes seconds : ℚ) : ℚ :=
  ((now + seconds) + 60 * minutes) + 60 * 60 * hours

/-- The registered callback `check_time(_t)` of `exit_after_time`: call
`sys.exit(0)` when the clock reading at the event has reached the fixed
deadline `d`, else return. -/
def check_time (d : ℚ) (now : ℚ) (_t : Task) : Outcome E :=
  if now ≥ d then Outcome.exit 0 else Outcome.cont

end Callbacks

/-- Factory `exit_if_file_exists(fname)`: performs exactly one registration,
of `check_file` on the event `execute.task-pre-execute`. -/
def exit_if_file_exists (Task E : Type) (fname : String) :
    List (String × ((String → Bool) → Task → Outcome E)) :=
  [("execute.task-pre-execute", check_file fname)]

/-- Factory `exit_when_true(f, function_takes_Task)`: rebinds `f` as in
`exit_when_true_f`, then performs exactly one registration, of `exit_when`
on the event `execute.task-executed1`. -/
def exit_when_true (Task V E : Type) (truthy : V → Bool)
    (f : Callable Task V E) (function_takes_Task : Bool) :
    List (String × (Task → Outcome (PyExc E))) :=
  [("execute.task-executed1", exit_when truthy (exit_when_true_f f function_takes_Task))]

/-- Factory `exit_after_n_tasks(n)`: creates the closure state
`executed = [0]` and performs exactly one registration, of `exit_after` on
the event `execute.task-executed1`. -/
def exit_after_n_tasks (Task E : Type) (n : Int) :
    List (String × (Task → Int → Int × Outcome E)) :=
  [("execute.task-executed1", fun _t executed => exit_after n executed)]

/-- Factory `exit_after_time(hours, minutes, seconds)`: computes the deadline
once, from the registration-time clock reading `now`, and performs exactly
one registration, of `check_time` on the event `execute.task-executed1`;
the callback receives the event-time clock reading. -/
def exit_after_time (Task E : Type) (now hours minutes seconds : ℚ) :
    List (String × (ℚ → Task → Outcome E)) :=
  [("execute.task-executed1",
    fun tnow _t => check_time (deadline now hours minutes seconds) tnow _t)]

/-- The error raised during configuration: Python's `ValueError` from
`int()` applied to a non-integer string, carrying the offending string. -/
inductive PyError where
  | valueError (s : String)
  deriving DecidableEq

/-- A whitespace character as stripped by Python's `int(str)`. -/
def isSpaceChar (c : Char) : Bool :=
  c == ' ' || c == '\t' || c == '\n' || c == '\r'

/-- The numeric value of a candidate digit string: after sign handling,
`int(str)` succeeds exactly when the remaining characters are one or more
decimal digits. -/
def digitsVal : List Char → Option Nat
  | [] => none
  | cs =>
    if cs.all Char.isDigit then
      some (cs.foldl (fun a c => 10 * a + (c.toNat - 48)) 0)
    else none

/-- Model of Python's `int(str)`: strip surrounding whitespace, accept an
optional sign followed by one or more decimal digits, and otherwise raise
`ValueError` carrying the offending string. -/
def pyInt (s : String) : Except PyError Int :=
  let cs := ((s.toList.dropWhile isSpaceChar).reverse.dropWhile isSpaceChar).reverse
  match cs with
  | '-' :: rest =>
    match digitsVal rest with
    | some v => Except.ok (-(v : Int))
    | none => Except.error (PyError.valueError s)
  | '+' :: rest =>
    match digitsVal rest with
    | some v => Except.ok (v : Int)
    | none => Except.error (PyError.valueError s)
  | _ =>
    match digitsVal cs with
    | some v => Except.ok (v : Int)
    | none => Except.error (PyError.valueError s)

/-- A record of one watcher installation performed by `exit_env_vars`: which
factory was called and with which arguments. -/
inductive Installation where
  | exit_after_n_tasks (n : Int)
  | exit_after_time (hours minutes seconds : Int)
  | exit_if_file_exists (fname : String)
  deriving DecidableEq

/-- Whether an installation is the deadline watcher. -/
def isTimeInstall : Installation → Bool
  | Installation.exit_after_time _ _ _ => true
  | _ => false

/-- The recognized environment variables whose values must parse as
integers. -/
def numericKeys : List String :=
  ["JUG_MAX_TASKS", "JUG_MAX_HOURS", "JUG_MAX_MINUTES", "JUG_MAX_SECONDS"]

/-- The value used by `exit_env_vars` for one time variable `key`: `0` when
the key is absent, `int(environ[key])` when present (propagating
`ValueError`).  This models `x = 0` followed by
`if key in environ: x = int(environ[key])`. -/
def envInt0 (environ : List (String × String)) (key : String) :
    Except PyError Int :=
  match environ.lookup key with
  | some v => pyInt v
  | none => Except.ok 0

/-- The `JUG_EXIT_IF_FILE_EXISTS` step of `exit_env_vars`: call
`exit_if_file_exists` when the variable is present.  This step never
raises. -/
def exit_env_vars_file (environ : List (String × String)) :
    List Installation × Option PyError :=
  let installs :=
    match environ.lookup "JUG_EXIT_IF_FILE_EXISTS" with
    | some v => [Installation.exit_if_file_exists v]
    | none => []
  (installs, none)

/-- The time steps of `exit_env_vars`, followed by the file step: parse
`JUG_MAX_HOURS`, `JUG_MAX_MINUTES` and `JUG_MAX_SECONDS` in that order
(absent means `0`), aborting on the first `ValueError`; then call
`exit_after_time(hours, minutes, seconds)` only when
`hours or minutes or seconds` is truthy, i.e. some parsed value is
nonzero. -/
def exit_env_vars_time (environ : List (String × String)) :
    List Installation × Option PyError :=
  match envInt0 environ "JUG_MAX_HOURS" with
  | Except.error e => ([], some e)
  | Except.ok hours =>
    match envInt0 environ "JUG_MAX_MINUTES" with
    | Except.error e => ([], some e)
    | Except.ok minutes =>
      match envInt0 environ "JUG_MAX_SECONDS" with
      | Except.error e => ([], some e)
      | Except.ok seconds =>
        let timeInstalls :=
          if hours ≠ 0 ∨ minutes ≠ 0 ∨ seconds ≠ 0 then
            [Installation.exit_after_time hours minutes seconds]
          else []
        let rest := exit_env_vars_file environ
        (timeInstalls ++ rest.fst, rest.snd)

/-- `exit_env_vars(environ)`: the sequence of watcher installations it
performs and the error it raises, if any.  The `JUG_MAX_TASKS` step runs
first: when the key is present, `int` is evaluated before
`exit_after_n_tasks` is called, so a parse failure aborts before any
installation; otherwise the counter watcher is installed and the time and
file steps follow. -/
def exit_env_vars (environ : List (String × String)) :
    List Installation × Option PyError :=
  match environ.lookup "JUG_MAX_TASKS" with
  | none => exit_env_vars_time environ
  | some v =>
    match pyInt v with
    | Except.error e => ([], some e)
    | Except.ok n =>
      let rest := exit_env_vars_time environ
      (Installation.exit_after_n_tasks n :: rest.fst, rest.snd)

/-! ### Helper lemmas -/

theorem afterEvents_eq (n : Int) (k : Nat) :
    afterEvents n k = if 1 ≤ k ∧ n ≤ (k : Int) then none else some (k : Int) := by
  induction k with
  | zero => simp [afterEvents]
  | succ k ih =>
    simp only [afterEvents, ih]
    by_cases hc : 1 ≤ k ∧ n ≤ (k : Int)
    · rw [if_pos hc, if_pos]
      refine ⟨by omega, ?_⟩
      push_cast
      omega
    · rw [if_neg hc]
      simp only [exit_after]
      by_cases hn : n ≤ (k : Int) + 1
      · rw [if_pos (by omega : ((k : Int) + 1 ≥ n))]
        rw [if_pos (by constructor <;> [omega; (push_cast; omega)])]
      · rw [if_neg (by omega : ¬ ((k : Int) + 1 ≥ n))]
        rw [if_neg (by push_cast; omega)]
        push_cast
        ring_nf

theorem envInt0_of_lookup_none (environ : List (String × String)) (key : String)
    (h : environ.lookup key = none) : envInt0 environ key = Except.ok 0 := by
  simp [envInt0, h]

theorem envInt0_of_lookup_some (environ : List (String × String)) (key v : String)
    (h : environ.lookup key = some v) : envInt0 environ key = pyInt v := by
  simp [envInt0, h]

theorem exit_env_vars_file_snd (environ : List (String × String)) :
    (exit_env_vars_file environ).snd = none := rfl

theorem mem_exit_env_vars_file (environ : List (String × String)) (i : Installation)
    (h : i ∈ (exit_env_vars_file environ).fst) :
    ∃ p, i = Installation.exit_if_file_exists p := by
  revert h
  unfold exit_env_vars_file
  cases environ.lookup "JUG_EXIT_IF_FILE_EXISTS" <;> simp
  intro h
  exact ⟨_, h⟩

theorem exit_env_vars_file_of_none (environ : List (String × String))
    (h : environ.lookup "JUG_EXIT_IF_FILE_EXISTS" = none) :
    exit_env_vars_file environ = ([], none) := by
  simp [exit_env_vars_file, h]

theorem exit_env_vars_file_filter (environ : List (String × String)) :
    ((exit_env_vars_file environ).fst).filter isTimeInstall = [] := by
  unfold exit_env_vars_file
  cases environ.lookup "JUG_EXIT_IF_FILE_EXISTS" <;> simp [isTimeInstall]

theorem exit_env_vars_time_eq (environ : List (String × String)) (h m s : Int)
    (hh : envInt0 environ "JUG_MAX_HOURS" = Except.ok h)
    (hm : envInt0 environ "JUG_MAX_MINUTES" = Except.ok m)
    (hs : envInt0 environ "JUG_MAX_SECONDS" = Except.ok s) :
    exit_env_vars_time environ =
      ((if h ≠ 0 ∨ m ≠ 0 ∨ s ≠ 0 then [Installation.exit_after_time h m s] else []) ++
        (exit_env_vars_file environ).fst, none) := by
  unfold exit_env_vars_time
  rw [hh, hm, hs]
  rfl

theorem exit_env_vars_time_snd_isSome (environ : List (String × String)) (e : PyError)
    (h : envInt0 environ "JUG_MAX_HOURS" = Except.error e ∨
         envInt0 environ "JUG_MAX_MINUTES" = Except.error e ∨
         envInt0 environ "JUG_MAX_SECONDS" = Except.error e) :
    ((exit_env_vars_time environ).snd).isSome = true := by
  unfold exit_env_vars_time
  cases hH : envInt0 environ "JUG_MAX_HOURS" with
  | error e1 => simp
  | ok a =>
    cases hM : envInt0 environ "JUG_MAX_MINUTES" with
    | error e1 => simp
    | ok b =>
      cases hS : envInt0 environ "JUG_MAX_SECONDS" with
      | error e1 => simp
      | ok c =>
        exfalso
        rcases h with h | h | h
        · rw [h] at hH
          exact Except.noConfusion hH
        · rw [h] at hM
          exact Except.noConfusion hM
        · rw [h] at hS
          exact Except.noConfusion hS

theorem exit_env_vars_time_fst_of_err (environ : List (String × String))
    (h : ((exit_env_vars_time environ).snd).isSome = true) :
    (exit_env_vars_time environ).fst = [] := by
  revert h
  unfold exit_env_vars_time
  cases hH : envInt0 environ "JUG_MAX_HOURS" with
  | error e1 => simp
  | ok a =>
    cases hM : envInt0 environ "JUG_MAX_MINUTES" with
    | error e1 => simp
    | ok b =>
      cases hS : envInt0 environ "JUG_MAX_SECONDS" with
      | error e1 => simp
      | ok c => simp [exit_env_vars_file_snd]

theorem mem_exit_env_vars_time (environ : List (String × String)) (i : Installation)
    (h : i ∈ (exit_env_vars_time environ).fst) :
    (∃ a b c, i = Installation.exit_after_time a b c) ∨
      (∃ p, i = Installation.exit_if_file_exists p) := by
  revert h
  unfold exit_env_vars_time
  cases hH : envInt0 environ "JUG_MAX_HOURS" with
  | error e1 => simp
  | ok a =>
    cases hM : envInt0 environ "JUG_MAX_MINUTES" with
    | error e1 => simp
    | ok b =>
      cases hS : envInt0 environ "JUG_MAX_SECONDS" with
      | error e1 => simp
      | ok c =>
        intro h
        simp only [List.mem_append] at h
        rcases h with h | h
        · left
          rcases (by split at h <;> simp_all : i = Installation.exit_after_time a b c) with rfl
          exact ⟨a, b, c, rfl⟩
        · right
          exact mem_exit_env_vars_file environ i h

theorem exit_env_vars_lookup_none (environ : List (String × String))
    (h0 : environ.lookup "JUG_MAX_TASKS" = none) :
    exit_env_vars environ = exit_env_vars_time environ := by
  unfold exit_env_vars
  rw [h0]

theorem exit_env_vars_tasks_ok (environ : List (String × String)) (v : String) (n : Int)
    (h0 : environ.lookup "JUG_MAX_TASKS" = some v) (h1 : pyInt v = Except.ok n) :
    exit_env_vars environ =
      (Installation.exit_after_n_tasks n :: (exit_env_vars_time environ).fst,
       (exit_env_vars_time environ).snd) := by
  unfold exit_env_vars
  rw [h0]
  simp only [h1]

theorem exit_env_vars_tasks_err (environ : List (String × String)) (v : String) (e : PyError)
    (h0 : environ.lookup "JUG_MAX_TASKS" = some v) (h1 : pyInt v = Except.error e) :
    exit_env_vars environ = ([], some e) := by
  unfold exit_env_vars
  rw [h0]
  simp only [h1]

theorem exit_env_vars_snd_isSome_of_time (environ : List (String × String))
    (h : ((exit_env_vars_time environ).snd).isSome = true) :
    ((exit_env_vars environ).snd).isSome = true := by
  unfold exit_env_vars
  cases hT : environ.lookup "JUG_MAX_TASKS" with
  | none => simpa using h
  | some v =>
    cases hP : pyInt v with
    | error e1 => simp [hP]
    | ok n1 => simp [hP, h]

theorem mem_exit_env_vars_cases (environ : List (String × String)) (i : Installation)
    (h : i ∈ (exit_env_vars environ).fst) :
    (∃ k, i = Installation.exit_after_n_tasks k) ∨
      i ∈ (exit_env_vars_time environ).fst := by
  cases hT : environ.lookup "JUG_MAX_TASKS" with
  | none =>
    right
    rwa [exit_env_vars_lookup_none environ hT] at h
  | some v =>
    cases hP : pyInt v with
    | error e1 =>
      rw [exit_env_vars_tasks_err environ v e1 hT hP] at h
      exact absurd h (by simp)
    | ok n1 =>
      rw [exit_env_vars_tasks_ok environ v n1 hT hP] at h
      have h2 : i ∈ Installation.exit_after_n_tasks n1 :: (exit_env_vars_time environ).fst := h
      rcases List.mem_cons.mp h2 with rfl | h3
      · exact Or.inl ⟨n1, rfl⟩
      · exact Or.inr h3

theorem mem_exit_env_vars_time_no_file (environ : List (String × String)) (i : Installation)
    (hf : environ.lookup "JUG_EXIT_IF_FILE_EXISTS" = none)
    (h : i ∈ (exit_env_vars_time environ).fst) :
    ∃ a b c, i = Installation.exit_after_time a b c := by
  revert h
  unfold exit_env_vars_time
  cases hH : envInt0 environ "JUG_MAX_HOURS" with
  | error e1 => simp
  | ok a =>
    cases hM : envInt0 environ "JUG_MAX_MINUTES" with
    | error e1 => simp
    | ok b =>
      cases hS : envInt0 environ "JUG_MAX_SECONDS" with
      | error e1 => simp
      | ok c =>
        simp only [exit_env_vars_file_of_none environ hf]
        intro h
        simp only [List.append_nil] at h
        split at h
        · simp only [List.mem_singleton] at h
          exact ⟨a, b, c, h⟩
        · exact absurd h (List.not_mem_nil i)

/-! ### Claim theorems -/

/-- C1: counterexample evaluation for the predicate watcher with
`function_takes_Task = false`.  The source's wrapper `f = lambda t : f()`
late-binds the name `f` to the rebound local — that is, to the lambda
itself — so the registered callback raises `TypeError` on every invocation
and never calls the caller-supplied function: the outcome is the same for
every supplied `g`, and it is never `exit 0`, contradicting the claimed
behaviour (call `f` with zero arguments, then exit with status 0 on a
truthy result). -/
theorem C1_exit_when_true_typeError :
    (∀ g : Unit → Except Empty Bool,
      exit_when (fun b => b) (exit_when_true_f (Callable.pyfun0 g) false) () =
        Outcome.raised PyExc.typeError) ∧
    exit_when (fun b => b)
        (exit_when_true_f
          (Callable.pyfun0 (fun _ => (Except.ok true : Except Empty Bool))) false) () ≠
      Outcome.exit 0 := by
  constructor
  · intro g
    rfl
  · decide

/-- C2: for the counter watcher `exit_after_n_tasks(n)`, the closure counter
starts at 0, each post-execute event increments it by exactly 1 and it
never resets (after `k` surviving events it is exactly `k`); an invocation
exits with status 0 precisely when the incremented counter has reached or
exceeded `n`; hence the process survives `k` events exactly when no event
index `j` with `1 ≤ j ≤ k` satisfies `n ≤ j` — so for `n = 3` it survives
events 1 and 2 and exits on event 3, for `n = 1` it exits on event 1, and
for `n ≤ 0` it also exits on event 1. -/
theorem C2_exit_after_n_tasks (n : Int) :
    (∀ s : Int, ((exit_after n s : Int × Outcome Empty)).fst = s + 1) ∧
    (∀ s : Int, ((exit_after n s : Int × Outcome Empty)).snd =
      if s + 1 ≥ n then Outcome.exit 0 else Outcome.cont) ∧
    (∀ (k : Nat) (s : Int), afterEvents n k = some s → s = (k : Int)) ∧
    (∀ k : Nat, afterEvents n k = none ↔ (1 ≤ k ∧ n ≤ (k : Int))) := by
  refine ⟨fun s => rfl, fun s => rfl, ?_, ?_⟩
  · intro k s h
    rw [afterEvents_eq] at h
    split at h
    · exact absurd h (by simp)
    · simp only [Option.some.injEq] at h
      exact h.symm
  · intro k
    rw [afterEvents_eq]
    split <;> rename_i hcond <;> simp [hcond]

/-- Witness for C2 at `n = 3`: one step increments the counter from 0 to 1,
and the watcher has exited within the first three events. -/
theorem C2_exit_after_n_tasks_witness :
    ((exit_after 3 0 : Int × Outcome Empty)).fst = 0 + 1 ∧ afterEvents 3 3 = none :=
  ⟨(C2_exit_after_n_tasks 3).1 0,
   ((C2_exit_after_n_tasks 3).2.2.2 3).mpr ⟨by decide, by decide⟩⟩

/-- C3: for the deadline watcher `exit_after_time(hours, minutes, seconds)`,
the deadline is a function of the registration-time clock reading alone and
equals `now + seconds + 60*minutes + 3600*hours`; the registered callback
exits with status 0 at exactly those events whose clock reading has reached
the deadline, and returns to the scheduler at events strictly before it;
with all three parameters 0 the deadline is the registration instant, so
the very next post-execute event (whose clock reading is not earlier than
registration) exits. -/
theorem C3_exit_after_time {Task : Type} (now h m s tev : ℚ) (t : Task) :
    deadline now h m s = now + s + 60 * m + 3600 * h ∧
    (check_time (deadline now h m s) tev t = (Outcome.exit 0 : Outcome Empty) ↔
      deadline now h m s ≤ tev) ∧
    (tev < deadline now h m s →
      check_time (deadline now h m s) tev t = (Outcome.cont : Outcome Empty)) ∧
    (now ≤ tev → check_time (deadline now 0 0 0) tev t = (Outcome.exit 0 : Outcome Empty)) := by
  refine ⟨by unfold deadline; ring, ⟨?_, ?_⟩, ?_, ?_⟩
  · intro hx
    by_contra hc
    rw [check_time, if_neg (fun hge => hc hge)] at hx
    exact Outcome.noConfusion hx
  · intro hle
    rw [check_time, if_pos hle]
  · intro hlt
    rw [check_time, if_neg (not_le.mpr hlt)]
  · intro hle
    have hd : deadline now 0 0 0 = now := by unfold deadline; ring
    rw [check_time, hd, if_pos hle]

/-- Witness for C3: at registration clock 5 with all parameters 0, an event
at clock 5 exits; with one minute configured at clock 0, an event at clock
0 is strictly before the deadline and returns to the scheduler. -/
theorem C3_exit_after_time_witness :
    check_time (deadline 5 0 0 0) 5 () = (Outcome.exit 0 : Outcome Empty) ∧
    check_time (deadline 0 0 1 0) 0 () = (Outcome.cont : Outcome Empty) :=
  ⟨(C3_exit_after_time 5 0 0 0 5 ()).2.2.2 (le_refl 5),
   (C3_exit_after_time 0 0 1 0 0 ()).2.2.1
     (lt_of_lt_of_eq (by decide : (0 : ℚ) < 60)
       (by simp [deadline] : deadline 0 0 1 0 = 60).symm)⟩

/-- C4: for every path, filesystem state and task, the file-marker callback
returns control to the scheduler — no exit and no exception — when the path
does not exist at the pre-execute event, and exits with status 0 when it
does; the callback carries no state, so the identical check repeats at
every pre-execute event. -/
theorem C4_exit_if_file_exists {Task : Type} (p : String) (fs : String → Bool) (t : Task) :
    (fs p = false → check_file p fs t = (Outcome.cont : Outcome Empty)) ∧
    (fs p = true → check_file p fs t = (Outcome.exit 0 : Outcome Empty)) := by
  constructor <;> intro h <;> simp [check_file, h]

/-- Witness for C4 at a concrete path, filesystem and task. -/
theorem C4_exit_if_file_exists_witness :
    check_file "stop.marker" (fun _ => false) () = (Outcome.cont : Outcome Empty) ∧
    check_file "stop.marker" (fun _ => true) () = (Outcome.exit 0 : Outcome Empty) :=
  ⟨(C4_exit_if_file_exists "stop.marker" (fun _ => false) ()).1 rfl,
   (C4_exit_if_file_exists "stop.marker" (fun _ => true) ()).2 rfl⟩

/-- C5: if any recognized numeric key holds a string that `int()` rejects,
`exit_env_vars` raises; whenever it raises, every installation performed
before the error is a counter watcher, so the deadline and file watchers —
processed after the numeric parses — are never installed on the error path;
in particular on the mapping with `JUG_MAX_TASKS` set to `"abc"` it raises
`ValueError` and installs nothing at all. -/
theorem C5_exit_env_vars_bad_value (environ : List (String × String)) :
    exit_env_vars [("JUG_MAX_TASKS", "abc")] = ([], some (PyError.valueError "abc")) ∧
    (∀ key v e, key ∈ numericKeys → environ.lookup key = some v →
      pyInt v = Except.error e → ((exit_env_vars environ).snd).isSome = true) ∧
    (((exit_env_vars environ).snd).isSome = true →
      ∀ i ∈ (exit_env_vars environ).fst, ∃ k, i = Installation.exit_after_n_tasks k) := by
  refine ⟨rfl, ?_, ?_⟩
  · intro key v e hkey hlook hbad
    have hkey4 : key = "JUG_MAX_TASKS" ∨ key = "JUG_MAX_HOURS" ∨
        key = "JUG_MAX_MINUTES" ∨ key = "JUG_MAX_SECONDS" := by
      simpa [numericKeys] using hkey
    rcases hkey4 with rfl | rfl | rfl | rfl
    · rw [exit_env_vars_tasks_err environ v e hlook hbad]
      rfl
    · exact exit_env_vars_snd_isSome_of_time environ
        (exit_env_vars_time_snd_isSome environ e
          (Or.inl ((envInt0_of_lookup_some environ _ v hlook).trans hbad)))
    · exact exit_env_vars_snd_isSome_of_time environ
        (exit_env_vars_time_snd_isSome environ e
          (Or.inr (Or.inl ((envInt0_of_lookup_some environ _ v hlook).trans hbad))))
    · exact exit_env_vars_snd_isSome_of_time environ
        (exit_env_vars_time_snd_isSome environ e
          (Or.inr (Or.inr ((envInt0_of_lookup_some environ _ v hlook).trans hbad))))
  · intro herr i hi
    cases hT : environ.lookup "JUG_MAX_TASKS" with
    | none =>
      rw [exit_env_vars_lookup_none environ hT] at herr hi
      rw [exit_env_vars_time_fst_of_err environ herr] at hi
      exact absurd hi (List.not_mem_nil i)
    | some v =>
      cases hP : pyInt v with
      | error e1 =>
        rw [exit_env_vars_tasks_err environ v e1 hT hP] at hi
        exact absurd hi (by simp)
      | ok n1 =>
        rw [exit_env_vars_tasks_ok environ v n1 hT hP] at hi herr
        have hi2 : i ∈ Installation.exit_after_n_tasks n1 ::
            (exit_env_vars_time environ).fst := hi
        rcases List.mem_cons.mp hi2 with rfl | hi3
        · exact ⟨n1, rfl⟩
        · have htfst := exit_env_vars_time_fst_of_err environ (by simpa using herr)
          rw [htfst] at hi3
          exact absurd hi3 (List.not_mem_nil i)

/-- Witness for C5: the mapping with `JUG_MAX_TASKS` set to `"abc"`
raises. -/
theorem C5_exit_env_vars_bad_value_witness :
    ((exit_env_vars [("JUG_MAX_TASKS", "abc")]).snd).isSome = true :=
  (C5_exit_env_vars_bad_value [("JUG_MAX_TASKS", "abc")]).2.1
    "JUG_MAX_TASKS" "abc" (PyError.valueError "abc") (by decide) rfl rfl

/-- C6: whenever configuration completes without raising, with parsed time
values `h`, `m`, `s` (an absent key contributing 0), the deadline watcher is
installed exactly once — as a single `exit_after_time(h, m, s)` call, never
as three independent watchers — when some value is nonzero, and not at all
when all three are zero. -/
theorem C6_exit_env_vars_deadline_guard (environ : List (String × String)) (h m s : Int)
    (hh : envInt0 environ "JUG_MAX_HOURS" = Except.ok h)
    (hm : envInt0 environ "JUG_MAX_MINUTES" = Except.ok m)
    (hs : envInt0 environ "JUG_MAX_SECONDS" = Except.ok s)
    (hok : (exit_env_vars environ).snd = none) :
    ((exit_env_vars environ).fst).filter isTimeInstall =
      if h = 0 ∧ m = 0 ∧ s = 0 then [] else [Installation.exit_after_time h m s] := by
  have htime := exit_env_vars_time_eq environ h m s hh hm hs
  have hfst : ((exit_env_vars_time environ).fst).filter isTimeInstall =
      if h = 0 ∧ m = 0 ∧ s = 0 then [] else [Installation.exit_after_time h m s] := by
    rw [htime]
    simp only [List.filter_append, exit_env_vars_file_filter, List.append_nil]
    by_cases hz : h = 0 ∧ m = 0 ∧ s = 0
    · rw [if_pos hz, if_neg (by tauto), List.filter_nil]
    · rw [if_neg hz, if_pos (by tauto)]
      simp [isTimeInstall]
  cases hT : environ.lookup "JUG_MAX_TASKS" with
  | none =>
    rw [exit_env_vars_lookup_none environ hT]
    exact hfst
  | some v =>
    cases hP : pyInt v with
    | error e1 =>
      rw [exit_env_vars_tasks_err environ v e1 hT hP] at hok
      exact absurd hok (by simp)
    | ok n1 =>
      rw [exit_env_vars_tasks_ok environ v n1 hT hP]
      simpa [isTimeInstall] using hfst

/-- Witness for C6: the all-zero example installs no deadline watcher. -/
theorem C6_exit_env_vars_deadline_guard_witness :
    ((exit_env_vars [("JUG_MAX_HOURS", "0"), ("JUG_MAX_MINUTES", "0")]).fst).filter
        isTimeInstall = [] := by
  simpa using
    C6_exit_env_vars_deadline_guard [("JUG_MAX_HOURS", "0"), ("JUG_MAX_MINUTES", "0")]
      0 0 0 rfl rfl rfl rfl

/-- C7: the mapping with only `JUG_MAX_TASKS = "5"` installs exactly one
watcher — the counter watcher with threshold 5 — and raises nothing; more
generally a recognized key absent from the mapping contributes neither a
watcher nor an error: without `JUG_MAX_TASKS` no counter watcher is
installed, without `JUG_EXIT_IF_FILE_EXISTS` no file watcher, without the
three time keys no deadline watcher, and with no recognized key at all
nothing is installed and nothing is raised. -/
theorem C7_exit_env_vars_absent_keys (environ : List (String × String)) :
    exit_env_vars [("JUG_MAX_TASKS", "5")] = ([Installation.exit_after_n_tasks 5], none) ∧
    (environ.lookup "JUG_MAX_TASKS" = none →
      ∀ k : Int, Installation.exit_after_n_tasks k ∉ (exit_env_vars environ).fst) ∧
    (environ.lookup "JUG_EXIT_IF_FILE_EXISTS" = none →
      ∀ p : String, Installation.exit_if_file_exists p ∉ (exit_env_vars environ).fst) ∧
    (environ.lookup "JUG_MAX_HOURS" = none → environ.lookup "JUG_MAX_MINUTES" = none →
      environ.lookup "JUG_MAX_SECONDS" = none →
      ∀ a b c : Int, Installation.exit_after_time a b c ∉ (exit_env_vars environ).fst) ∧
    (environ.lookup "JUG_MAX_TASKS" = none → environ.lookup "JUG_MAX_HOURS" = none →
      environ.lookup "JUG_MAX_MINUTES" = none → environ.lookup "JUG_MAX_SECONDS" = none →
      environ.lookup "JUG_EXIT_IF_FILE_EXISTS" = none →
      exit_env_vars environ = ([], none)) := by
  refine ⟨rfl, ?_, ?_, ?_, ?_⟩
  · intro h0 k hmem
    rw [exit_env_vars_lookup_none environ h0] at hmem
    rcases mem_exit_env_vars_time environ _ hmem with ⟨a, b, c, heq⟩ | ⟨p, heq⟩
    · exact Installation.noConfusion heq
    · exact Installation.noConfusion heq
  · intro hf p hmem
    rcases mem_exit_env_vars_cases environ _ hmem with ⟨k, heq⟩ | h2
    · exact Installation.noConfusion heq
    · rcases mem_exit_env_vars_time_no_file environ _ hf h2 with ⟨a, b, c, heq⟩
      exact Installation.noConfusion heq
  · intro hH0 hM0 hS0 a b c hmem
    rcases mem_exit_env_vars_cases environ _ hmem with ⟨k, heq⟩ | h2
    · exact Installation.noConfusion heq
    · rw [exit_env_vars_time_eq environ 0 0 0 (envInt0_of_lookup_none environ _ hH0)
        (envInt0_of_lookup_none environ _ hM0) (envInt0_of_lookup_none environ _ hS0)] at h2
      rcases mem_exit_env_vars_file environ _ (by simpa using h2) with ⟨p, heq⟩
      exact Installation.noConfusion heq
  · intro hT hH0 hM0 hS0 hF0
    rw [exit_env_vars_lookup_none environ hT,
      exit_env_vars_time_eq environ 0 0 0 (envInt0_of_lookup_none environ _ hH0)
        (envInt0_of_lookup_none environ _ hM0) (envInt0_of_lookup_none environ _ hS0),
      exit_env_vars_file_of_none environ hF0]
    simp

/-- Witness for C7: with only the file key set, no counter watcher is
installed. -/
theorem C7_exit_env_vars_absent_keys_witness :
    Installation.exit_after_n_tasks 7 ∉
      (exit_env_vars [("JUG_EXIT_IF_FILE_EXISTS", "stop")]).fst :=
  (C7_exit_env_vars_absent_keys [("JUG_EXIT_IF_FILE_EXISTS", "stop")]).2.1 rfl 7

/-- C8: exceptions from the function invoked by the predicate watcher's
callback propagate unchanged: whenever the call `f(t)` performed by
`exit_when` raises `e`, the callback's outcome is exactly `raised e` —
nothing is caught, no default result is substituted, and no exit and no
state change happen on the exception path. -/
theorem C8_exit_when_propagates {Task V E : Type} (truthy : V → Bool)
    (f : Callable Task V E) (t : Task) (e : PyExc E)
    (h : call1 f t = Except.error e) :
    exit_when truthy f t = Outcome.raised e := by
  unfold exit_when
  rw [h]

/-- Witness for C8: a one-argument predicate that raises has its exception
propagate out of the callback. -/
theorem C8_exit_when_propagates_witness :
    exit_when (fun b => b)
        (Callable.pyfun1 (fun _ : Unit => (Except.error () : Except Unit Bool))) () =
      Outcome.raised (PyExc.user ()) :=
  C8_exit_when_propagates (fun b => b) _ () (PyExc.user ()) rfl

/-- C9: each factory performs exactly one registration and returns:
`exit_if_file_exists` registers its callback under the event name
`execute.task-pre-execute`, while `exit_when_true`, `exit_after_n_tasks`
and `exit_after_time` register theirs under `execute.task-executed1`. -/
theorem C9_registrations (Task V E : Type) (fname : String) (truthy : V → Bool)
    (f : Callable Task V E) (b : Bool) (n : Int) (now hrs mins secs : ℚ) :
    (exit_if_file_exists Task E fname).map Prod.fst = ["execute.task-pre-execute"] ∧
    (exit_when_true Task V E truthy f b).map Prod.fst = ["execute.task-executed1"] ∧
    (exit_after_n_tasks Task E n).map Prod.fst = ["execute.task-executed1"] ∧
    (exit_after_time Task E now hrs mins secs).map Prod.fst = ["execute.task-executed1"] :=
  ⟨rfl, rfl, rfl, rfl⟩

/-- C10: a negative combined duration from the environment is neither
rejected nor treated as unset: when the three time variables parse to `h`,
`m`, `s` with `s + 60*m + 3600*h < 0` and configuration raises nothing, the
deadline watcher `exit_after_time(h, m, s)` is installed (negative values
pass the nonzero install guard), its deadline lies strictly before the
registration-time clock reading, and every post-execute event at or after
registration exits with status 0. -/
theorem C10_negative_deadline {Task : Type} (environ : List (String × String))
    (h m s : Int) (treg tev : ℚ) (t : Task)
    (hh : envInt0 environ "JUG_MAX_HOURS" = Except.ok h)
    (hm : envInt0 environ "JUG_MAX_MINUTES" = Except.ok m)
    (hs : envInt0 environ "JUG_MAX_SECONDS" = Except.ok s)
    (hneg : s + 60 * m + 3600 * h < 0)
    (hok : (exit_env_vars environ).snd = none)
    (hmono : treg ≤ tev) :
    Installation.exit_after_time h m s ∈ (exit_env_vars environ).fst ∧
    deadline treg (h : ℚ) (m : ℚ) (s : ℚ) < treg ∧
    check_time (deadline treg (h : ℚ) (m : ℚ) (s : ℚ)) tev t =
      (Outcome.exit 0 : Outcome Empty) := by
  have hguard : h ≠ 0 ∨ m ≠ 0 ∨ s ≠ 0 := by
    by_contra hc
    push_neg at hc
    omega
  have hdlt : deadline treg (h : ℚ) (m : ℚ) (s : ℚ) < treg := by
    unfold deadline
    have hcast : (s : ℚ) + 60 * (m : ℚ) + 3600 * (h : ℚ) < 0 := by
      exact_mod_cast hneg
    linarith
  refine ⟨?_, hdlt, ?_⟩
  · have htime := exit_env_vars_time_eq environ h m s hh hm hs
    have hmemtime : Installation.exit_after_time h m s ∈ (exit_env_vars_time environ).fst := by
      rw [htime]
      rw [if_pos hguard]
      simp
    cases hT : environ.lookup "JUG_MAX_TASKS" with
    | none => rwa [exit_env_vars_lookup_none environ hT]
    | some v =>
      cases hP : pyInt v with
      | error e1 =>
        rw [exit_env_vars_tasks_err environ v e1 hT hP] at hok
        exact absurd hok (by simp)
      | ok n1 =>
        rw [exit_env_vars_tasks_ok environ v n1 hT hP]
        exact List.mem_cons_of_mem _ hmemtime
  · rw [check_time, if_pos (le_of_lt (lt_of_lt_of_le hdlt hmono))]

/-- Witness for C10: `JUG_MAX_SECONDS = "-5"` installs a deadline watcher
whose deadline is already past, and the first event after registration
exits. -/
theorem C10_negative_deadline_witness :
    Installation.exit_after_time 0 0 (-5) ∈
      (exit_env_vars [("JUG_MAX_SECONDS", "-5")]).fst ∧
    deadline 0 0 0 (-5) < 0 ∧
    check_time (deadline 0 0 0 (-5)) 0 () = (Outcome.exit 0 : Outcome Empty) := by
  simpa using
    C10_negative_deadline [("JUG_MAX_SECONDS", "-5")] 0 0 (-5) 0 0 ()
      rfl rfl rfl (by decide) rfl (le_refl 0)

end JugExit
